import Mathlib

/-!
Verification development for the meta-ads-analytics-dashboard repository.

The repository contains three near-identical dashboard variants:
* `appmanual.py` — spreadsheet-upload dashboard (namespace `AppManual`),
* `app.py` — live-API dashboard (namespace `AppLive`),
* `before_metrics_addition.py` — revenue-aware live dashboard (namespace `AppRev`).

Pure Python functions are embedded as Lean functions over `ℚ` (exact
rationals stand in for Python floats; no rounding is involved in any of the
properties below).  Pandas element-wise division, which can produce IEEE
`inf`/`NaN`, is embedded by the explicit value type `FVal`.

Third-party library behaviour that the code relies on is modelled by the
fragment actually exercised: `pd.to_datetime` on the ISO `YYYY-MM-DD` strings
appearing in these sheets (`parse_date`), and `pd.to_numeric` on plain
decimal literals (`parse_num`).
-/

/-! ### String utilities (model the Python `in`-substring test, case folding) -/

/-- `startsWithChars n h` : the char list `n` is a leading segment of `h`. -/
def startsWithChars : List Char → List Char → Bool
  | [], _ => true
  | _ :: _, [] => false
  | a :: as, b :: bs => a == b && startsWithChars as bs

/-- Contiguous-substring test on char lists (the Python `needle in hay`). -/
def containsChars (needle : List Char) : List Char → Bool
  | [] => needle.isEmpty
  | b :: bs => startsWithChars needle (b :: bs) || containsChars needle bs

/-- Python `needle in hay` on strings. -/
def strContains (needle hay : String) : Bool :=
  containsChars needle.toList hay.toList

/-- ASCII lower-casing of one character (the fragment of `str.lower`
exercised by the column names of these sheets). -/
def lowerChar (c : Char) : Char :=
  if 'A' ≤ c ∧ c ≤ 'Z' then Char.ofNat (c.toNat + 32) else c

/-- `str.lower` on the ASCII column names of these sheets. -/
def strLower (s : String) : String := String.mk (s.toList.map lowerChar)

/-- ASCII whitespace (the characters `str.strip` removes on these inputs). -/
def isSpaceChar (c : Char) : Bool :=
  c == ' ' || c == '\t' || c == '\n' || c == '\r'

/-- Strip leading and trailing whitespace from a char list. -/
def trimChars (cs : List Char) : List Char :=
  ((cs.dropWhile isSpaceChar).reverse.dropWhile isSpaceChar).reverse

/-- `str.strip` on cell text. -/
def strTrim (s : String) : String := String.mk (trimChars s.toList)

/-- Split a char list on a separator character (every occurrence). -/
def splitChars (sep : Char) : List Char → List (List Char)
  | [] => [[]]
  | c :: cs =>
    match splitChars sep cs with
    | h :: t => if c == sep then [] :: h :: t else (c :: h) :: t
    | [] => if c == sep then [[], []] else [[c]]

/-- Digits of a char list as a natural number; `none` if empty or non-digit. -/
def digitsToNat (cs : List Char) : Option ℕ :=
  if cs ≠ [] ∧ cs.all Char.isDigit then
    some (cs.foldl (fun n c => n * 10 + (c.toNat - 48)) 0)
  else none

/-- Models the fragment of `pd.to_datetime` exercised by the uploaded sheets:
an ISO `YYYY-MM-DD` date parses to `(year, month, day)`; free text (such as
note rows) fails to parse. -/
def parse_date (s : String) : Option (ℕ × ℕ × ℕ) :=
  match (splitChars '-' (trimChars s.toList)).map digitsToNat with
  | [some y, some m, some d] =>
    if 1 ≤ m ∧ m ≤ 12 ∧ 1 ≤ d ∧ d ≤ 31 then some (y, m, d) else none
  | _ => none

/-- Models the fragment of `pd.to_numeric(·, errors="coerce")` exercised by
the sheets: an optionally signed decimal literal parses to a rational,
anything else is `none` (which the caller zero-fills). -/
def parse_num (s : String) : Option ℚ :=
  let core (t : List Char) : Option ℚ :=
    match (splitChars '.' t).map digitsToNat with
    | [some n] => some (n : ℚ)
    | [some n, some f] =>
      some ((n : ℚ) + (f : ℚ) /
        (10 : ℚ) ^ ((splitChars '.' t).getD 1 []).length)
    | _ => none
  match trimChars s.toList with
  | '-' :: rest => (core rest).map (fun q => -q)
  | t => core t

/-! ### Pandas element-wise arithmetic values

`FVal` is the value domain of a pandas float column entry: a finite rational,
`+inf`, `-inf`, or `NaN`.  `fdiv` is element-wise division, `fmul100`
multiplication by 100, `fillna0` is `.fillna(0)` (replaces `NaN` only), and
`repinf0` is `.replace([float("inf")], 0)` (replaces `+inf` only). -/

inductive FVal where
  | fin (q : ℚ)
  | pinf
  | ninf
  | nan
deriving DecidableEq, Repr

def fdiv (a b : ℚ) : FVal :=
  if b ≠ 0 then .fin (a / b)
  else if 0 < a then .pinf
  else if a < 0 then .ninf
  else .nan

def fmul100 : FVal → FVal
  | .fin q => .fin (q * 100)
  | v => v

def fillna0 : FVal → FVal
  | .nan => .fin 0
  | v => v

def repinf0 : FVal → FVal
  | .pinf => .fin 0
  | v => v

/-! ### Benchmark entries -/

structure Bench where
  min : ℚ
  ideal : ℚ
  max : ℚ
  unit : String
deriving DecidableEq, Repr

/-! ### Recommendation issues (shared shape across all three variants) -/

structure Issue where
  priority : String
  metric : String
  current : ℚ
  target : ℚ
  recommendations : List String
deriving DecidableEq, Repr

/-- `priority_order` dict of the Python code; only the three literal keys are
ever constructed by `get_recommendations`, so the catch-all value 3 is never
reached on real issues. -/
def priority_order (p : String) : ℕ :=
  if p = "CRITICAL" then 0 else if p = "HIGH" then 1 else if p = "MEDIUM" then 2 else 3

/-- Rank of an issue under `priority_order`. -/
def rankOf (i : Issue) : ℕ := priority_order i.priority

/-- Stable insertion into a rank-sorted list (a new element goes before the
first element of equal or larger rank).  `issueSort` built on it is a stable
sort, which is the guarantee Python's `list.sort` gives. -/
def issueInsert (a : Issue) : List Issue → List Issue
  | [] => [a]
  | b :: l => if rankOf a ≤ rankOf b then a :: b :: l else b :: issueInsert a l

/-- Stable sort by `priority_order` rank, modelling
`issues.sort(key=lambda x: priority_order[x["priority"]])`. -/
def issueSort : List Issue → List Issue
  | [] => []
  | a :: l => issueInsert a (issueSort l)

namespace AppManual

/-! ## `appmanual.py` — the spreadsheet-upload dashboard -/

/-- The `BENCHMARKS` table of `appmanual.py` (all entries higher-is-better). -/
def BENCHMARKS : String → Option Bench := fun name =>
  match name with
  | "CTR" => some ⟨0.9, 1.5, 3.0, "%"⟩
  | "LP_View_Rate" => some ⟨80, 90, 100, "%"⟩
  | "ATC_Rate" => some ⟨10, 20, 30, "%"⟩
  | "Checkout_Rate" => some ⟨60, 75, 85, "%"⟩
  | "Purchase_Rate" => some ⟨50, 65, 80, "%"⟩
  | "Overall_CVR" => some ⟨2, 5, 10, "%"⟩
  | "CPC" => some ⟨5, 10, 15, "₹"⟩
  | "CPA" => some ⟨100, 300, 500, "₹"⟩
  | "Frequency" => some ⟨1.0, 1.1, 1.3, "x"⟩
  | _ => none

/-- One canonical row produced by `clean_sheet` (the `clean` DataFrame). -/
structure CanonRow where
  date : ℕ × ℕ × ℕ
  impressions : ℚ
  clicks : ℚ
  lp_views : ℚ
  adds_to_cart : ℚ
  checkouts : ℚ
  purchases : ℚ
  spend : ℚ
  product : String
deriving DecidableEq, Repr

/-- Sum of a numeric column over the row set (`df.sum(numeric_only=True)`). -/
def sumBy (rows : List CanonRow) (f : CanonRow → ℚ) : ℚ := (rows.map f).sum

/-- The local `pct` helper of `calculate_metrics`:
`(a / b * 100) if b > 0 else 0`. -/
def pct (a b : ℚ) : ℚ := if 0 < b then a / b * 100 else 0

structure Totals where
  impressions : ℚ
  clicks : ℚ
  lp_views : ℚ
  adds_to_cart : ℚ
  checkouts : ℚ
  purchases : ℚ
  spend : ℚ
deriving DecidableEq, Repr

structure Metrics where
  CTR : ℚ
  LP_View_Rate : ℚ
  ATC_Rate : ℚ
  Checkout_Rate : ℚ
  Purchase_Rate : ℚ
  Overall_CVR : ℚ
  CPC : ℚ
  CPA : ℚ
  ROAS : ℚ
  Frequency : ℚ
  totals : Totals
deriving DecidableEq, Repr

/-- `calculate_metrics` of `appmanual.py` (lines 113–142).  Note that this
variant computes `Frequency` as `impressions / clicks` and `ROAS` as
`purchases * 500 / spend`. -/
def calculate_metrics (rows : List CanonRow) : Metrics :=
  let ti := sumBy rows (·.impressions)
  let tc := sumBy rows (·.clicks)
  let tl := sumBy rows (·.lp_views)
  let ta := sumBy rows (·.adds_to_cart)
  let tk := sumBy rows (·.checkouts)
  let tp := sumBy rows (·.purchases)
  let ts := sumBy rows (·.spend)
  { CTR := pct tc ti
    LP_View_Rate := pct tl tc
    ATC_Rate := pct ta tl
    Checkout_Rate := pct tk ta
    Purchase_Rate := pct tp tk
    Overall_CVR := pct tp tc
    CPC := if 0 < tc then ts / tc else 0
    CPA := if 0 < tp then ts / tp else 0
    ROAS := if 0 < ts then tp * 500 / ts else 0
    Frequency := if 0 < tc then ti / tc else 0
    totals := ⟨ti, tc, tl, ta, tk, tp, ts⟩ }

/-- One row of the table returned by `calculate_daily_metrics`: the copied
input row plus the nine per-day metric columns (pandas float semantics). -/
structure DailyRow where
  base : CanonRow
  CTR : FVal
  LP_View_Rate : FVal
  ATC_Rate : FVal
  Checkout_Rate : FVal
  Purchase_Rate : FVal
  Overall_CVR : FVal
  CPC : FVal
  CPA : FVal
  Frequency : FVal
deriving DecidableEq, Repr

/-- `calculate_daily_metrics` of `appmanual.py` (lines 144–158).  Each ratio
column is `(a / b * 100).fillna(0)` — only the `NaN` arising from `0 / 0` is
zero-filled; a positive numerator over a zero denominator stays `+inf`.
Only the `CPA` column additionally applies `.replace([float("inf")], 0)`. -/
def calculate_daily_metrics (rows : List CanonRow) : List DailyRow :=
  rows.map fun r =>
    { base := r
      CTR := fillna0 (fmul100 (fdiv r.clicks r.impressions))
      LP_View_Rate := fillna0 (fmul100 (fdiv r.lp_views r.clicks))
      ATC_Rate := fillna0 (fmul100 (fdiv r.adds_to_cart r.lp_views))
      Checkout_Rate := fillna0 (fmul100 (fdiv r.checkouts r.adds_to_cart))
      Purchase_Rate := fillna0 (fmul100 (fdiv r.purchases r.checkouts))
      Overall_CVR := fillna0 (fmul100 (fdiv r.purchases r.clicks))
      CPC := fillna0 (fdiv r.spend r.clicks)
      CPA := repinf0 (fillna0 (fdiv r.spend r.purchases))
      Frequency := fillna0 (fdiv r.impressions r.clicks) }

/-- `get_status` of `appmanual.py` (lines 245–256). -/
def get_status (metric_name : String) (value : ℚ) : String :=
  match BENCHMARKS metric_name with
  | none => "neutral"
  | some bench =>
    if bench.ideal ≤ value then "excellent"
    else if bench.min ≤ value then "good"
    else "critical"

/-- `get_status_emoji` of `appmanual.py` (lines 258–266). -/
def get_status_emoji (metric_name : String) (value : ℚ) : String :=
  let status := get_status metric_name value
  if status = "excellent" then "✅"
  else if status = "good" then "⚠️"
  else "🚨"

/-! ### Schema normalizer (`detect_header_row`, `normalize_columns`,
`split_data_and_notes`, `clean_sheet`)

A raw sheet (the `header=None` read) is a list of rows, each row a list of
cell strings.  `pd.read_excel(..., header=i)` turns row `i` into the column
names and the rows after it into the data body. -/

/-- A raw sheet: list of rows of cell strings. -/
abbrev RawSheet := List (List String)

/-- Does a row contain a cell whose lowercased text contains "impression" or
"day"?  (The header-mark test of `detect_header_row`.) -/
def rowHasHeaderMark (row : List String) : Bool :=
  row.any fun c => strContains "impression" (strLower c) || strContains "day" (strLower c)

/-- `detect_header_row` (lines 42–48): first of the first 10 rows carrying a
header mark; row 0 if none found. -/
def detect_header_row (raw : RawSheet) : ℕ :=
  match (List.range (Nat.min 10 raw.length)).find? (fun i => rowHasHeaderMark (raw.getD i [])) with
  | some i => i
  | none => 0

/-- The header row the sheet is re-read with. -/
def sheetHeader (raw : RawSheet) : List String := raw.getD (detect_header_row raw) []

/-- The data body after the detected header row. -/
def sheetBody (raw : RawSheet) : RawSheet := raw.drop (detect_header_row raw + 1)

/-- The per-field synonym scan of `normalize_columns`: first synonym (in
order) that is a substring of some lowercased column name; among columns the
first match (in column order) wins.  Assumes column names have distinct
lowercased forms, as the `lower_cols` dict does. -/
def resolve_col (cols : List String) (syns : List String) : Option String :=
  syns.findSome? fun syn => cols.find? fun c => strContains syn (strLower c)

/-- The resolved column mapping (`col_map`); an unresolved field is `none`. -/
structure ColMap where
  date : Option String
  impressions : Option String
  clicks : Option String
  lp_views : Option String
  adds_to_cart : Option String
  checkouts : Option String
  spend : Option String
  purchases : Option String
deriving DecidableEq, Repr

/-- `normalize_columns` (lines 50–64) over the `COLUMN_SYNONYMS` table. -/
def normalize_columns (cols : List String) : ColMap :=
  { date := resolve_col cols ["day", "date"]
    impressions := resolve_col cols ["impressions"]
    clicks := resolve_col cols ["clicks (all)", "link clicks", "clicks"]
    lp_views := resolve_col cols ["landing page views", "landing page view"]
    adds_to_cart := resolve_col cols ["adds to cart", "add to cart"]
    checkouts := resolve_col cols ["checkouts initiated", "checkout"]
    spend := resolve_col cols ["amount spent"]
    purchases := resolve_col cols ["results", "website purchase"] }

/-- Cell of a row under a named column (`row[col]`); missing cells read as
the empty string (pandas would give `NaN`, whose text is filtered below just
as the empty string is). -/
def cellAt (header row : List String) (colName : String) : String :=
  match header.findIdx? (· == colName) with
  | some i => row.getD i ""
  | none => ""

/-- `split_data_and_notes` (lines 66–80): rows whose date cell parses are
data; the date-cell text of the others is kept as a note when non-blank and
not the literal "nan"/"none". -/
def split_data_and_notes (header : List String) (rows : RawSheet) (dateCol : String) :
    RawSheet × List String :=
  match rows with
  | [] => ([], [])
  | row :: rest =>
    let sr := split_data_and_notes header rest dateCol
    if (parse_date (cellAt header row dateCol)).isSome then (row :: sr.1, sr.2)
    else
      let txt := strTrim (cellAt header row dateCol)
      if txt ≠ "" ∧ strLower txt ≠ "nan" ∧ strLower txt ≠ "none" then (sr.1, txt :: sr.2)
      else (sr.1, sr.2)

/-- Numeric coercion with zero fill:
`pd.to_numeric(·, errors="coerce").fillna(0)`. -/
def coerceNum (s : String) : ℚ := (parse_num s).getD 0

/-- `clean_sheet` (lines 82–111).  Returns `none` in the first component when
the sheet is rejected; the `clean = clean[clean["date"].notna()]` filter is
the `filterMap` over `parse_date`. -/
def clean_sheet (raw : RawSheet) (sheet_name : String) :
    Option (List CanonRow) × List String :=
  let header := sheetHeader raw
  let cm := normalize_columns header
  match cm.date with
  | none => (none, [])
  | some dateCol =>
    let dn := split_data_and_notes header (sheetBody raw) dateCol
    let dataRows := dn.1
    let notes := dn.2
    match cm.impressions with
    | none => (none, notes)
    | some ci =>
    match cm.clicks with
    | none => (none, notes)
    | some cc =>
    match cm.lp_views with
    | none => (none, notes)
    | some cl =>
    match cm.adds_to_cart with
    | none => (none, notes)
    | some ca =>
    match cm.checkouts with
    | none => (none, notes)
    | some ck =>
    match cm.spend with
    | none => (none, notes)
    | some cs =>
    match cm.purchases with
    | none => (none, notes)
    | some cp =>
      let rows := dataRows.filterMap fun row =>
        (parse_date (cellAt header row dateCol)).map fun d =>
          ({ date := d
             impressions := coerceNum (cellAt header row ci)
             clicks := coerceNum (cellAt header row cc)
             lp_views := coerceNum (cellAt header row cl)
             adds_to_cart := coerceNum (cellAt header row ca)
             checkouts := coerceNum (cellAt header row ck)
             purchases := coerceNum (cellAt header row cp)
             spend := coerceNum (cellAt header row cs)
             product := sheet_name } : CanonRow)
      (some rows, notes)

/-! ### Recommendation engine of `appmanual.py` (lines 342–409) -/

def checkoutIssue (m : Metrics) : Issue :=
  { priority := "CRITICAL"
    metric := "Checkout Rate"
    current := m.Checkout_Rate
    target := 75
    recommendations :=
      [ "Enable guest checkout to reduce friction"
      , "Add multiple payment options (UPI, COD, Cards)"
      , "Display shipping costs earlier in the funnel"
      , "Simplify checkout to 1-2 steps maximum"
      , "Add trust badges and security indicators"
      , "Optimize mobile checkout experience" ] }

def lpViewIssue (m : Metrics) : Issue :=
  { priority := "HIGH"
    metric := "Landing Page View Rate"
    current := m.LP_View_Rate
    target := 90
    recommendations :=
      [ "Improve page load speed (compress images, use CDN)"
      , "Optimize for mobile devices"
      , "Check for broken links or redirects"
      , "Ensure landing page matches ad promise" ] }

def purchaseIssue (m : Metrics) : Issue :=
  { priority := "MEDIUM"
    metric := "Purchase Completion Rate"
    current := m.Purchase_Rate
    target := 65
    recommendations :=
      [ "Add exit-intent popups with discount offers"
      , "Implement cart abandonment email sequence"
      , "Show limited stock/urgency indicators"
      , "Offer free shipping threshold"
      , "Add live chat support during checkout" ] }

def ctrIssue (m : Metrics) : Issue :=
  { priority := "MEDIUM"
    metric := "Click-Through Rate"
    current := m.CTR
    target := 1.5
    recommendations :=
      [ "Test different ad creatives and copy"
      , "Improve ad targeting to reach more relevant audience"
      , "Use more compelling calls-to-action"
      , "A/B test different images and videos"
      , "Ensure ad relevance matches landing page" ] }

/-- The issue list in rule-declaration order, before the final sort. -/
def issues_unsorted (m : Metrics) : List Issue :=
  (if m.Checkout_Rate < 60 then [checkoutIssue m] else []) ++
  (if m.LP_View_Rate < 80 then [lpViewIssue m] else []) ++
  (if m.Purchase_Rate < 50 then [purchaseIssue m] else []) ++
  (if m.CTR < 0.9 then [ctrIssue m] else [])

/-- `get_recommendations` of `appmanual.py`: build the issue list in rule
order, then stable-sort by `priority_order` rank. -/
def get_recommendations (m : Metrics) : List Issue :=
  issueSort (issues_unsorted m)

end AppManual

namespace AppLive

/-! ## `app.py` — the live-API dashboard -/

/-- The `BENCHMARKS` table of `app.py` (identical entries to the manual
variant; all higher-is-better). -/
def BENCHMARKS : String → Option Bench := fun name =>
  match name with
  | "CTR" => some ⟨0.9, 1.5, 3.0, "%"⟩
  | "LP_View_Rate" => some ⟨80, 90, 100, "%"⟩
  | "ATC_Rate" => some ⟨10, 20, 30, "%"⟩
  | "Checkout_Rate" => some ⟨60, 75, 85, "%"⟩
  | "Purchase_Rate" => some ⟨50, 65, 80, "%"⟩
  | "Overall_CVR" => some ⟨2, 5, 10, "%"⟩
  | "CPC" => some ⟨5, 10, 15, "₹"⟩
  | "CPA" => some ⟨100, 300, 500, "₹"⟩
  | "Frequency" => some ⟨1.0, 1.1, 1.3, "x"⟩
  | _ => none

/-- One normalized insight row built by `fetch_campaign_data` (lines
109–141). -/
structure ApiRow where
  date : String
  product : String
  impressions : ℚ
  clicks : ℚ
  spend : ℚ
  reach : ℚ
  frequency : ℚ
  cpc : ℚ
  ctr : ℚ
  lp_views : ℚ
  adds_to_cart : ℚ
  checkouts : ℚ
  purchases : ℚ
deriving DecidableEq, Repr

/-- One `{action_type, value}` entry of an insight record's `actions` list. -/
structure Action where
  action_type : String
  value : ℚ
deriving DecidableEq, Repr

/-- Branch guard `"landing_page_view" in action_type`. -/
def lpTest (t : String) : Bool := strContains "landing_page_view" t

/-- Branch guard `"add_to_cart" in action_type or action_type == "offsite_conversion.fb_pixel_add_to_cart"`. -/
def atcTest (t : String) : Bool :=
  strContains "add_to_cart" t || t == "offsite_conversion.fb_pixel_add_to_cart"

/-- Branch guard `"initiate_checkout" in action_type or action_type == "offsite_conversion.fb_pixel_initiate_checkout"`. -/
def icTest (t : String) : Bool :=
  strContains "initiate_checkout" t || t == "offsite_conversion.fb_pixel_initiate_checkout"

/-- Branch guard `"purchase" in action_type or action_type == "offsite_conversion.fb_pixel_purchase"`. -/
def purTest (t : String) : Bool :=
  strContains "purchase" t || t == "offsite_conversion.fb_pixel_purchase"

/-- One step of the action-extraction loop of `fetch_campaign_data` (lines
127–139): an `if/elif` chain of substring tests that assigns (overwrites)
the matched funnel field. -/
def applyAction (row : ApiRow) (a : Action) : ApiRow :=
  if lpTest a.action_type then { row with lp_views := a.value }
  else if atcTest a.action_type then { row with adds_to_cart := a.value }
  else if icTest a.action_type then { row with checkouts := a.value }
  else if purTest a.action_type then { row with purchases := a.value }
  else row

/-- Effective guard under which one loop step writes `lp_views`. -/
def effLP (t : String) : Bool := lpTest t

/-- Effective guard under which one loop step writes `adds_to_cart` (its
branch test, and no earlier branch matched). -/
def effATC (t : String) : Bool := !lpTest t && atcTest t

/-- Effective guard under which one loop step writes `checkouts`. -/
def effIC (t : String) : Bool := !lpTest t && !atcTest t && icTest t

/-- Effective guard under which one loop step writes `purchases`. -/
def effPur (t : String) : Bool := !lpTest t && !atcTest t && !icTest t && purTest t

/-- Value of the last actions-list entry passing `test`, if any. -/
def lastMatch (test : String → Bool) (actions : List Action) : Option ℚ :=
  ((actions.filter fun a => test a.action_type).map Action.value).getLast?

/-- The whole extraction loop folded over the actions list. -/
def extractActions (row : ApiRow) (actions : List Action) : ApiRow :=
  actions.foldl applyAction row

/-- The insight-record normalization of `fetch_campaign_data`: the row is
initialized with the directly reported fields and all four funnel fields at
0, then the actions list is folded over it. -/
def insightRow (date product : String)
    (impressions clicks spend reach frequency cpc ctr : ℚ)
    (actions : List Action) : ApiRow :=
  extractActions
    { date := date, product := product, impressions := impressions
      clicks := clicks, spend := spend, reach := reach, frequency := frequency
      cpc := cpc, ctr := ctr
      lp_views := 0, adds_to_cart := 0, checkouts := 0, purchases := 0 }
    actions

def sumBy (rows : List ApiRow) (f : ApiRow → ℚ) : ℚ := (rows.map f).sum

def pct (a b : ℚ) : ℚ := if 0 < b then a / b * 100 else 0

structure Metrics where
  CTR : ℚ
  LP_View_Rate : ℚ
  ATC_Rate : ℚ
  Checkout_Rate : ℚ
  Purchase_Rate : ℚ
  Overall_CVR : ℚ
  CPC : ℚ
  CPA : ℚ
  ROAS : ℚ
  Frequency : ℚ
  totals : AppManual.Totals
deriving DecidableEq, Repr

/-- `calculate_metrics` of `app.py` (lines 152–181).  This variant computes
`Frequency` as `totals.frequency / len(df)` — the mean of the per-row
reported frequency values. -/
def calculate_metrics (rows : List ApiRow) : Metrics :=
  let ti := sumBy rows (·.impressions)
  let tc := sumBy rows (·.clicks)
  let tl := sumBy rows (·.lp_views)
  let ta := sumBy rows (·.adds_to_cart)
  let tk := sumBy rows (·.checkouts)
  let tp := sumBy rows (·.purchases)
  let ts := sumBy rows (·.spend)
  let tf := sumBy rows (·.frequency)
  { CTR := pct tc ti
    LP_View_Rate := pct tl tc
    ATC_Rate := pct ta tl
    Checkout_Rate := pct tk ta
    Purchase_Rate := pct tp tk
    Overall_CVR := pct tp tc
    CPC := if 0 < tc then ts / tc else 0
    CPA := if 0 < tp then ts / tp else 0
    ROAS := if 0 < ts then tp * 500 / ts else 0
    Frequency := if 0 < rows.length then tf / (rows.length : ℚ) else 0
    totals := ⟨ti, tc, tl, ta, tk, tp, ts⟩ }

/-- `get_status_emoji` of `app.py` (lines 183–194): same banding as the
manual variant, but returns the emoji directly and `⚪` for an unknown
metric. -/
def get_status_emoji (metric_name : String) (value : ℚ) : String :=
  match BENCHMARKS metric_name with
  | none => "⚪"
  | some bench =>
    if bench.ideal ≤ value then "✅"
    else if bench.min ≤ value then "⚠️"
    else "🚨"

end AppLive

namespace AppRev

/-! ## `before_metrics_addition.py` — the revenue-aware live dashboard -/

/-- The `BENCHMARKS` table with ROAS and ACoS added (lines 22–34).  `ACoS` is
the single lower-is-better entry: its `max` (15) is the best bound and its
`min` (40) the worst. -/
def BENCHMARKS : String → Option Bench := fun name =>
  match name with
  | "CTR" => some ⟨0.9, 1.5, 3.0, "%"⟩
  | "LP_View_Rate" => some ⟨80, 90, 100, "%"⟩
  | "ATC_Rate" => some ⟨10, 20, 30, "%"⟩
  | "Checkout_Rate" => some ⟨60, 75, 85, "%"⟩
  | "Purchase_Rate" => some ⟨50, 65, 80, "%"⟩
  | "Overall_CVR" => some ⟨2, 5, 10, "%"⟩
  | "CPC" => some ⟨5, 10, 15, ""⟩
  | "CPA" => some ⟨100, 300, 500, ""⟩
  | "Frequency" => some ⟨1.0, 1.1, 1.3, "x"⟩
  | "ROAS" => some ⟨2.0, 4.0, 6.0, "x"⟩
  | "ACoS" => some ⟨40, 25, 15, "%"⟩
  | _ => none

/-- One normalized insight row of `fetch_data` (lines 188–247); carries
`revenue` in addition to the live-variant fields. -/
structure RevRow where
  date : String
  product : String
  impressions : ℚ
  clicks : ℚ
  spend : ℚ
  reach : ℚ
  frequency : ℚ
  cpc : ℚ
  ctr : ℚ
  lp_views : ℚ
  adds_to_cart : ℚ
  checkouts : ℚ
  purchases : ℚ
  revenue : ℚ
deriving DecidableEq, Repr

def sumBy (rows : List RevRow) (f : RevRow → ℚ) : ℚ := (rows.map f).sum

def pct (a b : ℚ) : ℚ := if 0 < b then a / b * 100 else 0

structure Totals where
  impressions : ℚ
  clicks : ℚ
  lp_views : ℚ
  adds_to_cart : ℚ
  checkouts : ℚ
  purchases : ℚ
  spend : ℚ
  revenue : ℚ
deriving DecidableEq, Repr

structure Metrics where
  CTR : ℚ
  LP_View_Rate : ℚ
  ATC_Rate : ℚ
  Checkout_Rate : ℚ
  Purchase_Rate : ℚ
  Overall_CVR : ℚ
  CPC : ℚ
  CPA : ℚ
  ROAS : ℚ
  ACoS : ℚ
  Frequency : ℚ
  totals : Totals
deriving DecidableEq, Repr

/-- `calculate_metrics` of `before_metrics_addition.py` (lines 260–295):
`ROAS = revenue / spend`, `ACoS = spend / revenue * 100`, `Frequency` is the
mean of per-row frequency. -/
def calculate_metrics (rows : List RevRow) : Metrics :=
  let ti := sumBy rows (·.impressions)
  let tc := sumBy rows (·.clicks)
  let tl := sumBy rows (·.lp_views)
  let ta := sumBy rows (·.adds_to_cart)
  let tk := sumBy rows (·.checkouts)
  let tp := sumBy rows (·.purchases)
  let ts := sumBy rows (·.spend)
  let trv := sumBy rows (·.revenue)
  let tf := sumBy rows (·.frequency)
  { CTR := pct tc ti
    LP_View_Rate := pct tl tc
    ATC_Rate := pct ta tl
    Checkout_Rate := pct tk ta
    Purchase_Rate := pct tp tk
    Overall_CVR := pct tp tc
    CPC := if 0 < tc then ts / tc else 0
    CPA := if 0 < tp then ts / tp else 0
    ROAS := if 0 < ts then trv / ts else 0
    ACoS := if 0 < trv then ts / trv * 100 else 0
    Frequency := if 0 < rows.length then tf / (rows.length : ℚ) else 0
    totals := ⟨ti, tc, tl, ta, tk, tp, ts, trv⟩ }

/-- `get_status_emoji` of `before_metrics_addition.py` (lines 315–336): for
`ACoS` lower is better — `✅` when `value ≤ max`, `⚠️` when
`value ≤ ideal`, else `🚨`; every other metric uses the default banding. -/
def get_status_emoji (metric_name : String) (value : ℚ) : String :=
  match BENCHMARKS metric_name with
  | none => "⚪"
  | some bench =>
    if metric_name = "ACoS" then
      if value ≤ bench.max then "✅"
      else if value ≤ bench.ideal then "⚠️"
      else "🚨"
    else
      if bench.ideal ≤ value then "✅"
      else if bench.min ≤ value then "⚠️"
      else "🚨"

/-! ### Recommendation engine of `before_metrics_addition.py` (463–543) -/

def checkoutIssue (m : Metrics) : Issue :=
  { priority := "CRITICAL"
    metric := "Checkout Rate"
    current := m.Checkout_Rate
    target := 75
    recommendations :=
      [ "Enable guest checkout to reduce friction"
      , "Add multiple payment options (UPI, COD, Cards)"
      , "Display shipping costs earlier in the funnel"
      , "Simplify checkout to 1-2 steps maximum"
      , "Add trust badges and security indicators" ] }

def lpViewIssue (m : Metrics) : Issue :=
  { priority := "HIGH"
    metric := "Landing Page View Rate"
    current := m.LP_View_Rate
    target := 90
    recommendations :=
      [ "Improve page load speed (compress images, use CDN)"
      , "Optimize for mobile devices"
      , "Check for broken links or redirects"
      , "Ensure landing page matches ad promise" ] }

def ctrIssue (m : Metrics) : Issue :=
  { priority := "MEDIUM"
    metric := "Click-Through Rate"
    current := m.CTR
    target := 1.5
    recommendations :=
      [ "Test different ad creatives and copy"
      , "Improve ad targeting to reach more relevant audience"
      , "Use more compelling calls-to-action"
      , "A/B test different images and videos" ] }

def roasIssue (m : Metrics) : Issue :=
  { priority := "CRITICAL"
    metric := "ROAS (Return on Ad Spend)"
    current := m.ROAS
    target := 4.0
    recommendations :=
      [ "Increase product prices or average order value"
      , "Improve conversion rate throughout funnel"
      , "Reduce ad spend on underperforming campaigns"
      , "Focus on high-value customer segments"
      , "Optimize product mix for profitability" ] }

def acosIssue (m : Metrics) : Issue :=
  { priority := "HIGH"
    metric := "ACoS (Advertising Cost of Sales)"
    current := m.ACoS
    target := 25
    recommendations :=
      [ "Reduce cost per click through better targeting"
      , "Improve conversion rate to lower CPA"
      , "Pause underperforming ad sets"
      , "Focus on audiences with lower CPAs"
      , "Optimize bidding strategy" ] }

/-- The issue list in rule-declaration order (Checkout, LP view, CTR, ROAS,
ACoS), before the final sort.  Note the ACoS trigger compares against the
`ideal` bound (25), not `max`. -/
def issues_unsorted (m : Metrics) : List Issue :=
  (if m.Checkout_Rate < 60 then [checkoutIssue m] else []) ++
  (if m.LP_View_Rate < 80 then [lpViewIssue m] else []) ++
  (if m.CTR < 0.9 then [ctrIssue m] else []) ++
  (if m.ROAS < 2.0 then [roasIssue m] else []) ++
  (if 25 < m.ACoS then [acosIssue m] else [])

/-- `get_recommendations` of `before_metrics_addition.py`. -/
def get_recommendations (m : Metrics) : List Issue :=
  issueSort (issues_unsorted m)

end AppRev

/-! ### Concrete inputs used by witnesses and counterexamples -/

/-- The synthetic sheet of the normalizer round-trip scenario. -/
def c8sheet : AppManual.RawSheet :=
  [ [ "Day", "Impressions", "Link clicks", "Landing page views", "Adds to cart"
    , "Checkouts initiated", "Amount spent", "Results" ]
  , [ "2024-01-01", "1000", "50", "45", "10", "7", "500", "4" ] ]

/-- A sheet with no resolvable date column. -/
def sheetNoDate : AppManual.RawSheet :=
  [ ["Impressions", "Link clicks"], ["1000", "50"] ]

/-- A sheet whose date column resolves but whose `spend` column is missing;
it carries one free-text note row below the data row. -/
def sheetNoSpend : AppManual.RawSheet :=
  [ [ "Day", "Impressions", "Link clicks", "Landing page views", "Adds to cart"
    , "Checkouts initiated", "Results" ]
  , [ "2024-01-01", "1", "2", "3", "4", "5", "6" ]
  , [ "Note: paused campaign due to inventory" ] ]

/-- A day with a tracked purchase but no tracked checkout (the funnel
violation the spec says must be tolerated). -/
def AppManual.c2rowA : AppManual.CanonRow :=
  { date := (2024, 1, 2), impressions := 100, clicks := 10, lp_views := 8
    adds_to_cart := 5, checkouts := 0, purchases := 1, spend := 50, product := "P" }

/-- A day with spend but no purchase (the `CPA` zero-division case). -/
def AppManual.c2rowB : AppManual.CanonRow :=
  { date := (2024, 1, 3), impressions := 100, clicks := 10, lp_views := 8
    adds_to_cart := 5, checkouts := 5, purchases := 0, spend := 50, product := "P" }

/-- Spreadsheet-variant view of one observed day: 10 impressions, 2 clicks. -/
def AppManual.c6row : AppManual.CanonRow :=
  { date := (2024, 1, 1), impressions := 10, clicks := 2, lp_views := 0
    adds_to_cart := 0, checkouts := 0, purchases := 0, spend := 0, product := "P" }

/-- API view of the same observed day: 10 impressions, 2 clicks, and an
upstream-reported frequency of 3. -/
def AppLive.c6row : AppLive.ApiRow :=
  { date := "2024-01-01", product := "P", impressions := 10, clicks := 2
    spend := 0, reach := 0, frequency := 3, cpc := 0, ctr := 0
    lp_views := 0, adds_to_cart := 0, checkouts := 0, purchases := 0 }

/-- The §8 ROAS/ACoS scenario day: `revenue = 6000`, `spend = 1500`. -/
def AppRev.acosScenarioRow : AppRev.RevRow :=
  { date := "2024-01-01", product := "P", impressions := 0, clicks := 0
    spend := 1500, reach := 0, frequency := 0, cpc := 0, ctr := 0
    lp_views := 0, adds_to_cart := 0, checkouts := 0, purchases := 0
    revenue := 6000 }

/-- An all-healthy manual-variant metric set (no rule triggers). -/
def AppManual.healthyMetrics : AppManual.Metrics :=
  { CTR := 2, LP_View_Rate := 95, ATC_Rate := 25, Checkout_Rate := 80
    Purchase_Rate := 70, Overall_CVR := 6, CPC := 8, CPA := 200, ROAS := 5
    Frequency := 1.2, totals := ⟨0, 0, 0, 0, 0, 0, 0⟩ }

/-- An all-healthy revenue-aware metric set (no rule triggers). -/
def AppRev.healthyMetrics : AppRev.Metrics :=
  { CTR := 2, LP_View_Rate := 95, ATC_Rate := 25, Checkout_Rate := 80
    Purchase_Rate := 70, Overall_CVR := 6, CPC := 8, CPA := 200, ROAS := 5
    ACoS := 20, Frequency := 1.2, totals := ⟨0, 0, 0, 0, 0, 0, 0, 0⟩ }

/-! ## Helper lemmas -/

/-! ### Stable sort by priority rank -/

theorem mem_issueInsert {x a : Issue} {l : List Issue} :
    x ∈ issueInsert a l ↔ x = a ∨ x ∈ l := by
  induction l with
  | nil => simp [issueInsert]
  | cons b t ih =>
    rw [issueInsert]
    split_ifs with h
    · simp
    · simp only [List.mem_cons, ih]
      tauto

theorem pairwise_issueInsert (a : Issue) {l : List Issue}
    (h : l.Pairwise fun x y => rankOf x ≤ rankOf y) :
    (issueInsert a l).Pairwise fun x y => rankOf x ≤ rankOf y := by
  induction l with
  | nil => simp [issueInsert]
  | cons b t ih =>
    rcases List.pairwise_cons.mp h with ⟨hb, ht⟩
    rw [issueInsert]
    split_ifs with hc
    · refine List.pairwise_cons.mpr ⟨?_, h⟩
      intro x hx
      rcases List.mem_cons.mp hx with rfl | hx
      · exact hc
      · exact le_trans hc (hb x hx)
    · refine List.pairwise_cons.mpr ⟨?_, ih ht⟩
      intro x hx
      rcases mem_issueInsert.mp hx with rfl | hx
      · exact le_of_lt (lt_of_not_le hc)
      · exact hb x hx

theorem pairwise_issueSort (l : List Issue) :
    (issueSort l).Pairwise fun x y => rankOf x ≤ rankOf y := by
  induction l with
  | nil => simp [issueSort]
  | cons a t ih => exact pairwise_issueInsert a ih

theorem filter_issueInsert (a : Issue) (l : List Issue) (k : ℕ) :
    (issueInsert a l).filter (fun x => rankOf x == k) =
      (if rankOf a = k then [a] else []) ++ l.filter (fun x => rankOf x == k) := by
  induction l with
  | nil => by_cases h : rankOf a = k <;> simp [issueInsert, h]
  | cons b t ih =>
    rw [issueInsert]
    by_cases hc : rankOf a ≤ rankOf b
    · rw [if_pos hc]
      by_cases h : rankOf a = k <;> simp [List.filter_cons, beq_iff_eq, h]
    · rw [if_neg hc]
      have hlt : rankOf b < rankOf a := lt_of_not_le hc
      by_cases hb : rankOf b = k <;> by_cases ha : rankOf a = k
      · omega
      · simp [List.filter_cons, beq_iff_eq, hb, ha, ih]
      · simp [List.filter_cons, beq_iff_eq, hb, ha, ih]
      · simp [List.filter_cons, beq_iff_eq, hb, ha, ih]

theorem filter_issueSort (l : List Issue) (k : ℕ) :
    (issueSort l).filter (fun x => rankOf x == k) = l.filter (fun x => rankOf x == k) := by
  induction l with
  | nil => rfl
  | cons a t ih =>
    rw [issueSort, filter_issueInsert, ih]
    by_cases h : rankOf a = k <;> simp [List.filter_cons, h]

theorem issueInsert_front {a : Issue} {l : List Issue}
    (h : ∀ b ∈ l, rankOf a ≤ rankOf b) : issueInsert a l = a :: l := by
  cases l with
  | nil => rfl
  | cons b t => rw [issueInsert, if_pos (h b (List.mem_cons_self b t))]

theorem issueInsert_append_skip {a : Issue} {l1 l2 : List Issue}
    (h : ∀ b ∈ l1, rankOf b < rankOf a) :
    issueInsert a (l1 ++ l2) = l1 ++ issueInsert a l2 := by
  induction l1 with
  | nil => rfl
  | cons b t ih =>
    rw [List.cons_append, issueInsert,
      if_neg (not_le.mpr (h b (List.mem_cons_self b t))), List.cons_append,
      ih fun x hx => h x (List.mem_cons_of_mem b hx)]

/-- A stable sort of a list whose ranks all lie in `{0, 1, 2}` is the rank-0
elements in order, then the rank-1 elements, then the rank-2 elements. -/
theorem issueSort_eq_filters (l : List Issue) (hl : ∀ x ∈ l, rankOf x ≤ 2) :
    issueSort l =
      l.filter (fun x => rankOf x == 0) ++ l.filter (fun x => rankOf x == 1) ++
        l.filter (fun x => rankOf x == 2) := by
  induction l with
  | nil => rfl
  | cons a t ih =>
    have ht : ∀ x ∈ t, rankOf x ≤ 2 := fun x hx => hl x (List.mem_cons_of_mem a hx)
    have ha : rankOf a ≤ 2 := hl a (List.mem_cons_self a t)
    have hm0 : ∀ x ∈ t.filter (fun x => rankOf x == 0), rankOf x = 0 := by
      intro x hx; simpa using (List.mem_filter.mp hx).2
    have hm1 : ∀ x ∈ t.filter (fun x => rankOf x == 1), rankOf x = 1 := by
      intro x hx; simpa using (List.mem_filter.mp hx).2
    have hm2 : ∀ x ∈ t.filter (fun x => rankOf x == 2), rankOf x = 2 := by
      intro x hx; simpa using (List.mem_filter.mp hx).2
    rw [issueSort, ih ht]
    have hcase : rankOf a = 0 ∨ rankOf a = 1 ∨ rankOf a = 2 := by omega
    rcases hcase with h | h | h
    · rw [issueInsert_front]
      · simp [List.filter_cons, h]
      · intro b _
        rw [h]
        exact Nat.zero_le _
    · rw [List.append_assoc, issueInsert_append_skip, issueInsert_front]
      · simp [List.filter_cons, h]
      · intro b hb
        rcases List.mem_append.mp hb with hb | hb
        · rw [h, hm1 b hb]
        · rw [h, hm2 b hb]; omega
      · intro b hb
        rw [h, hm0 b hb]
        omega
    · rw [issueInsert_append_skip, issueInsert_front]
      · simp [List.filter_cons, h, List.append_assoc]
      · intro b hb
        rw [h, hm2 b hb]
      · intro b hb
        rcases List.mem_append.mp hb with hb | hb
        · rw [h, hm0 b hb]; omega
        · rw [h, hm1 b hb]; omega

/-! ### Last-write-wins helper -/

theorem getLast?_cons_getD {α : Type} (xs : List α) (x d : α) :
    ((x :: xs).getLast?).getD d = (xs.getLast?).getD x := by
  induction xs generalizing x d with
  | nil => rfl
  | cons y t ih =>
    rw [List.getLast?_cons_cons]
    exact (ih y d).trans (ih y x).symm

/-! ### Benchmark-table bounds -/

theorem AppManual.bench_min_lt_ideal_manual {name : String} {b : Bench}
    (h : AppManual.BENCHMARKS name = some b) : b.min < b.ideal := by
  unfold AppManual.BENCHMARKS at h
  split at h <;> simp_all <;> norm_num [← h]

theorem AppLive.bench_min_lt_ideal_live {name : String} {b : Bench}
    (h : AppLive.BENCHMARKS name = some b) : b.min < b.ideal := by
  unfold AppLive.BENCHMARKS at h
  split at h <;> simp_all <;> norm_num [← h]

/-! ### Action-extraction characterization -/

namespace AppLive

theorem applyAction_lp (r : ApiRow) (a : Action) :
    (applyAction r a).lp_views = if effLP a.action_type then a.value else r.lp_views := by
  unfold applyAction effLP
  cases h1 : lpTest a.action_type <;> cases h2 : atcTest a.action_type <;>
    cases h3 : icTest a.action_type <;> cases h4 : purTest a.action_type <;>
    simp [h1, h2, h3, h4]

theorem applyAction_atc (r : ApiRow) (a : Action) :
    (applyAction r a).adds_to_cart =
      if effATC a.action_type then a.value else r.adds_to_cart := by
  unfold applyAction effATC
  cases h1 : lpTest a.action_type <;> cases h2 : atcTest a.action_type <;>
    cases h3 : icTest a.action_type <;> cases h4 : purTest a.action_type <;>
    simp [h1, h2, h3, h4]

theorem applyAction_ic (r : ApiRow) (a : Action) :
    (applyAction r a).checkouts = if effIC a.action_type then a.value else r.checkouts := by
  unfold applyAction effIC
  cases h1 : lpTest a.action_type <;> cases h2 : atcTest a.action_type <;>
    cases h3 : icTest a.action_type <;> cases h4 : purTest a.action_type <;>
    simp [h1, h2, h3, h4]

theorem applyAction_pur (r : ApiRow) (a : Action) :
    (applyAction r a).purchases = if effPur a.action_type then a.value else r.purchases := by
  unfold applyAction effPur
  cases h1 : lpTest a.action_type <;> cases h2 : atcTest a.action_type <;>
    cases h3 : icTest a.action_type <;> cases h4 : purTest a.action_type <;>
    simp [h1, h2, h3, h4]

theorem extract_lp (init : ApiRow) (actions : List Action) :
    (extractActions init actions).lp_views = (lastMatch effLP actions).getD init.lp_views := by
  induction actions generalizing init with
  | nil => rfl
  | cons a l ih =>
    show (extractActions (applyAction init a) l).lp_views = _
    rw [ih, applyAction_lp]
    cases h : effLP a.action_type <;>
      simp [lastMatch, List.filter_cons, h, getLast?_cons_getD]

theorem extract_atc (init : ApiRow) (actions : List Action) :
    (extractActions init actions).adds_to_cart =
      (lastMatch effATC actions).getD init.adds_to_cart := by
  induction actions generalizing init with
  | nil => rfl
  | cons a l ih =>
    show (extractActions (applyAction init a) l).adds_to_cart = _
    rw [ih, applyAction_atc]
    cases h : effATC a.action_type <;>
      simp [lastMatch, List.filter_cons, h, getLast?_cons_getD]

theorem extract_ic (init : ApiRow) (actions : List Action) :
    (extractActions init actions).checkouts = (lastMatch effIC actions).getD init.checkouts := by
  induction actions generalizing init with
  | nil => rfl
  | cons a l ih =>
    show (extractActions (applyAction init a) l).checkouts = _
    rw [ih, applyAction_ic]
    cases h : effIC a.action_type <;>
      simp [lastMatch, List.filter_cons, h, getLast?_cons_getD]

theorem extract_pur (init : ApiRow) (actions : List Action) :
    (extractActions init actions).purchases = (lastMatch effPur actions).getD init.purchases := by
  induction actions generalizing init with
  | nil => rfl
  | cons a l ih =>
    show (extractActions (applyAction init a) l).purchases = _
    rw [ih, applyAction_pur]
    cases h : effPur a.action_type <;>
      simp [lastMatch, List.filter_cons, h, getLast?_cons_getD]

end AppLive

/-! ### Issue ranks of the two rule sets -/

theorem AppManual.rank_checkoutIssue_manual (m : AppManual.Metrics) :
    rankOf (AppManual.checkoutIssue m) = 0 := rfl

theorem AppManual.rank_lpViewIssue_manual (m : AppManual.Metrics) :
    rankOf (AppManual.lpViewIssue m) = 1 := rfl

theorem AppManual.rank_purchaseIssue (m : AppManual.Metrics) :
    rankOf (AppManual.purchaseIssue m) = 2 := rfl

theorem AppManual.rank_ctrIssue_manual (m : AppManual.Metrics) :
    rankOf (AppManual.ctrIssue m) = 2 := rfl

theorem AppRev.rank_checkoutIssue_rev (m : AppRev.Metrics) :
    rankOf (AppRev.checkoutIssue m) = 0 := rfl

theorem AppRev.rank_lpViewIssue_rev (m : AppRev.Metrics) :
    rankOf (AppRev.lpViewIssue m) = 1 := rfl

theorem AppRev.rank_ctrIssue_rev (m : AppRev.Metrics) :
    rankOf (AppRev.ctrIssue m) = 2 := rfl

theorem AppRev.rank_roasIssue (m : AppRev.Metrics) :
    rankOf (AppRev.roasIssue m) = 0 := rfl

theorem AppRev.rank_acosIssue (m : AppRev.Metrics) :
    rankOf (AppRev.acosIssue m) = 1 := rfl

theorem AppManual.issues_rank_le_manual (m : AppManual.Metrics) :
    ∀ x ∈ AppManual.issues_unsorted m, rankOf x ≤ 2 := by
  intro x hx
  simp only [AppManual.issues_unsorted, List.mem_append] at hx
  rcases hx with ((hx | hx) | hx) | hx <;> revert hx <;> split_ifs <;>
    simp_all [AppManual.rank_checkoutIssue_manual, AppManual.rank_lpViewIssue_manual,
      AppManual.rank_purchaseIssue, AppManual.rank_ctrIssue_manual]

theorem AppRev.issues_rank_le_rev (m : AppRev.Metrics) :
    ∀ x ∈ AppRev.issues_unsorted m, rankOf x ≤ 2 := by
  intro x hx
  simp only [AppRev.issues_unsorted, List.mem_append] at hx
  rcases hx with (((hx | hx) | hx) | hx) | hx <;> revert hx <;> split_ifs <;>
    simp_all [AppRev.rank_checkoutIssue_rev, AppRev.rank_lpViewIssue_rev,
      AppRev.rank_ctrIssue_rev, AppRev.rank_roasIssue, AppRev.rank_acosIssue]

/-! ## Claim theorems -/

/-- C1: for every Canonical Row set (including the empty one),
`calculate_metrics` is total over exact rationals (so no NaN/Infinity can
appear in its output); every ratio — CTR, LP_View_Rate, ATC_Rate,
Checkout_Rate, Purchase_Rate, Overall_CVR, CPC, CPA, ROAS, Frequency —
whose denominator total is ≤ 0 is returned as 0, and on the empty row set
every metric and every total is 0.  Proved for both the spreadsheet variant
(`appmanual.py`) and the live variant (`app.py`, whose Frequency denominator
is the row count, which is ≤ 0 exactly on the empty set covered by the final
conjunct). -/
theorem claim_C1_safe_metrics (rows : List AppManual.CanonRow)
    (rows2 : List AppLive.ApiRow) :
    (AppManual.sumBy rows (·.impressions) ≤ 0 → (AppManual.calculate_metrics rows).CTR = 0) ∧
    (AppManual.sumBy rows (·.clicks) ≤ 0 →
      (AppManual.calculate_metrics rows).LP_View_Rate = 0 ∧
      (AppManual.calculate_metrics rows).Overall_CVR = 0 ∧
      (AppManual.calculate_metrics rows).CPC = 0 ∧
      (AppManual.calculate_metrics rows).Frequency = 0) ∧
    (AppManual.sumBy rows (·.lp_views) ≤ 0 → (AppManual.calculate_metrics rows).ATC_Rate = 0) ∧
    (AppManual.sumBy rows (·.adds_to_cart) ≤ 0 →
      (AppManual.calculate_metrics rows).Checkout_Rate = 0) ∧
    (AppManual.sumBy rows (·.checkouts) ≤ 0 →
      (AppManual.calculate_metrics rows).Purchase_Rate = 0) ∧
    (AppManual.sumBy rows (·.purchases) ≤ 0 → (AppManual.calculate_metrics rows).CPA = 0) ∧
    (AppManual.sumBy rows (·.spend) ≤ 0 → (AppManual.calculate_metrics rows).ROAS = 0) ∧
    (AppManual.calculate_metrics [] =
      { CTR := 0, LP_View_Rate := 0, ATC_Rate := 0, Checkout_Rate := 0, Purchase_Rate := 0,
        Overall_CVR := 0, CPC := 0, CPA := 0, ROAS := 0, Frequency := 0,
        totals := ⟨0, 0, 0, 0, 0, 0, 0⟩ }) ∧
    (AppLive.sumBy rows2 (·.impressions) ≤ 0 → (AppLive.calculate_metrics rows2).CTR = 0) ∧
    (AppLive.sumBy rows2 (·.clicks) ≤ 0 →
      (AppLive.calculate_metrics rows2).LP_View_Rate = 0 ∧
      (AppLive.calculate_metrics rows2).Overall_CVR = 0 ∧
      (AppLive.calculate_metrics rows2).CPC = 0) ∧
    (AppLive.sumBy rows2 (·.lp_views) ≤ 0 → (AppLive.calculate_metrics rows2).ATC_Rate = 0) ∧
    (AppLive.sumBy rows2 (·.adds_to_cart) ≤ 0 →
      (AppLive.calculate_metrics rows2).Checkout_Rate = 0) ∧
    (AppLive.sumBy rows2 (·.checkouts) ≤ 0 →
      (AppLive.calculate_metrics rows2).Purchase_Rate = 0) ∧
    (AppLive.sumBy rows2 (·.purchases) ≤ 0 → (AppLive.calculate_metrics rows2).CPA = 0) ∧
    (AppLive.sumBy rows2 (·.spend) ≤ 0 → (AppLive.calculate_metrics rows2).ROAS = 0) ∧
    (AppLive.calculate_metrics [] =
      { CTR := 0, LP_View_Rate := 0, ATC_Rate := 0, Checkout_Rate := 0, Purchase_Rate := 0,
        Overall_CVR := 0, CPC := 0, CPA := 0, ROAS := 0, Frequency := 0,
        totals := ⟨0, 0, 0, 0, 0, 0, 0⟩ }) := by
  refine ⟨?_, ?_, ?_, ?_, ?_, ?_, ?_, rfl, ?_, ?_, ?_, ?_, ?_, ?_, ?_, rfl⟩ <;>
    intro h <;>
    simp [AppManual.calculate_metrics, AppManual.pct, AppLive.calculate_metrics, AppLive.pct,
      not_lt.mpr h]

/-- C1 witness: the safe-division conclusions evaluated on the empty row set. -/
theorem claim_C1_witness :
    (AppManual.calculate_metrics []).CTR = 0 ∧
    (AppManual.calculate_metrics []).CPA = 0 ∧
    (AppLive.calculate_metrics []).ROAS = 0 := by
  obtain ⟨w1, _, _, _, _, w6, _, _, _, _, _, _, _, _, w15, _⟩ :=
    claim_C1_safe_metrics [] []
  exact ⟨w1 (by simp [AppManual.sumBy]), w6 (by simp [AppManual.sumBy]),
    w15 (by simp [AppLive.sumBy])⟩

/-- C2: evaluation of `calculate_daily_metrics` at the failing input.  On the
row set `[c2rowA, c2rowB]` — where `c2rowA` has `purchases = 1` and
`checkouts = 0` — the returned daily `Purchase_Rate` column is
`[+inf, 0]`, not `[0, 0]` as the per-row safe-division rule requires: the
`.fillna(0)` applied to the ratio columns replaces only the `NaN` of `0 / 0`,
and the `.replace([float("inf")], 0)` that would catch a positive numerator
over a zero denominator is applied to the `CPA` column alone (second
conjunct). -/
theorem claim_C2_divergence :
    (AppManual.calculate_daily_metrics [AppManual.c2rowA, AppManual.c2rowB]).map
        AppManual.DailyRow.Purchase_Rate = [FVal.pinf, FVal.fin 0] ∧
    (AppManual.calculate_daily_metrics [AppManual.c2rowA, AppManual.c2rowB]).map
        AppManual.DailyRow.CPA = [FVal.fin 50, FVal.fin 0] ∧
    FVal.pinf ≠ FVal.fin 0 := by
  refine ⟨?_, ?_, by simp⟩ <;>
    norm_num [AppManual.calculate_daily_metrics, AppManual.c2rowA, AppManual.c2rowB,
      fdiv, fmul100, fillna0, repinf0]

/-- C3: for every metric name present in the (higher-is-better) benchmark
table and every value, the classifier returns `excellent` iff
`value ≥ ideal`, `good` iff `min ≤ value < ideal`, and `critical` iff
`value < min`; a value exactly at `ideal` is `excellent`, exactly at `min`
is `good`, one unit below `min` is `critical`; a name absent from the table
returns `neutral` (`get_status` of `appmanual.py`) resp. `⚪`
(`get_status_emoji` of `app.py`) and never fails. -/
theorem claim_C3_classifier_bands (name : String) (v : ℚ) :
    (∀ b, AppManual.BENCHMARKS name = some b →
      ((AppManual.get_status name v = "excellent" ↔ b.ideal ≤ v) ∧
       (AppManual.get_status name v = "good" ↔ b.min ≤ v ∧ v < b.ideal) ∧
       (AppManual.get_status name v = "critical" ↔ v < b.min) ∧
       AppManual.get_status name b.ideal = "excellent" ∧
       AppManual.get_status name b.min = "good" ∧
       AppManual.get_status name (b.min - 1) = "critical")) ∧
    (AppManual.BENCHMARKS name = none → AppManual.get_status name v = "neutral") ∧
    (∀ b, AppLive.BENCHMARKS name = some b →
      ((AppLive.get_status_emoji name v = "✅" ↔ b.ideal ≤ v) ∧
       (AppLive.get_status_emoji name v = "⚠️" ↔ b.min ≤ v ∧ v < b.ideal) ∧
       (AppLive.get_status_emoji name v = "🚨" ↔ v < b.min))) ∧
    (AppLive.BENCHMARKS name = none → AppLive.get_status_emoji name v = "⚪") := by
  refine ⟨?_, ?_, ?_, ?_⟩
  · intro b hb
    have hlt : b.min < b.ideal := AppManual.bench_min_lt_ideal_manual hb
    simp only [AppManual.get_status, hb]
    refine ⟨?_, ?_, ?_, ?_, ?_, ?_⟩
    · by_cases h1 : b.ideal ≤ v <;> by_cases h2 : b.min ≤ v <;> simp [h1, h2]
    · by_cases h1 : b.ideal ≤ v <;> by_cases h2 : b.min ≤ v <;>
        simp [h1, h2] <;> first | linarith | (intro; linarith)
    · by_cases h1 : b.ideal ≤ v <;> by_cases h2 : b.min ≤ v <;>
        simp [h1, h2] <;> first | linarith | (intro; linarith)
    · rw [if_pos le_rfl]
    · rw [if_neg (not_le.mpr hlt), if_pos le_rfl]
    · rw [if_neg (by linarith), if_neg (by linarith)]
  · intro h
    simp [AppManual.get_status, h]
  · intro b hb
    have hlt : b.min < b.ideal := AppLive.bench_min_lt_ideal_live hb
    simp only [AppLive.get_status_emoji, hb]
    refine ⟨?_, ?_, ?_⟩
    · by_cases h1 : b.ideal ≤ v <;> by_cases h2 : b.min ≤ v <;> simp [h1, h2]
    · by_cases h1 : b.ideal ≤ v <;> by_cases h2 : b.min ≤ v <;>
        simp [h1, h2] <;> first | linarith | (intro; linarith)
    · by_cases h1 : b.ideal ≤ v <;> by_cases h2 : b.min ≤ v <;>
        simp [h1, h2] <;> first | linarith | (intro; linarith)
  · intro h
    simp [AppLive.get_status_emoji, h]

/-- C3 witness: the bands evaluated at concrete names and values. -/
theorem claim_C3_witness :
    AppManual.get_status "Checkout_Rate" 75 = "excellent" ∧
    AppManual.get_status "XYZ" 1 = "neutral" ∧
    AppLive.get_status_emoji "CTR" 0.5 = "🚨" ∧
    AppLive.get_status_emoji "XYZ" 1 = "⚪" := by
  obtain ⟨h1, -, -, -⟩ := claim_C3_classifier_bands "Checkout_Rate" (75 : ℚ)
  obtain ⟨-, n2, -, n4⟩ := claim_C3_classifier_bands "XYZ" (1 : ℚ)
  obtain ⟨-, -, l3, -⟩ := claim_C3_classifier_bands "CTR" (0.5 : ℚ)
  refine ⟨?_, n2 rfl, ?_, n4 rfl⟩
  · exact ((h1 ⟨60, 75, 85, "%"⟩ rfl).1).mpr (by norm_num)
  · exact ((l3 ⟨0.9, 1.5, 3.0, "%"⟩ rfl).2.2).mpr (by norm_num)

/-- C4: the revenue-aware classifier treats `ACoS` (benchmark entry
`min = 40, ideal = 25, max = 15`) with inverted polarity: `✅` (excellent)
iff `v ≤ 15`, `⚠️` (good) iff `15 < v ≤ 25`, `🚨` (critical) iff `v > 25`.
The §8 scenario `revenue = 6000, spend = 1500` yields `ACoS = 25` — exactly
the ideal bound, classified good — and `ROAS = 4`, classified excellent. -/
theorem claim_C4_acos_inverted :
    (∀ v : ℚ,
      (AppRev.get_status_emoji "ACoS" v = "✅" ↔ v ≤ 15) ∧
      (AppRev.get_status_emoji "ACoS" v = "⚠️" ↔ 15 < v ∧ v ≤ 25) ∧
      (AppRev.get_status_emoji "ACoS" v = "🚨" ↔ 25 < v)) ∧
    (AppRev.calculate_metrics [AppRev.acosScenarioRow]).ACoS = 25 ∧
    (AppRev.calculate_metrics [AppRev.acosScenarioRow]).ROAS = 4 ∧
    AppRev.get_status_emoji "ACoS"
      ((AppRev.calculate_metrics [AppRev.acosScenarioRow]).ACoS) = "⚠️" ∧
    AppRev.get_status_emoji "ROAS"
      ((AppRev.calculate_metrics [AppRev.acosScenarioRow]).ROAS) = "✅" := by
  have hACoS : (AppRev.calculate_metrics [AppRev.acosScenarioRow]).ACoS = 25 := by
    norm_num [AppRev.calculate_metrics, AppRev.sumBy, AppRev.acosScenarioRow]
  have hROAS : (AppRev.calculate_metrics [AppRev.acosScenarioRow]).ROAS = 4 := by
    norm_num [AppRev.calculate_metrics, AppRev.sumBy, AppRev.acosScenarioRow]
  refine ⟨?_, hACoS, hROAS, ?_, ?_⟩
  · intro v
    simp only [AppRev.get_status_emoji, AppRev.BENCHMARKS]
    norm_num
    refine ⟨?_, ?_, ?_⟩
    · by_cases h1 : v ≤ 15 <;> by_cases h2 : v ≤ 25 <;> simp [h1, h2] <;> linarith
    · by_cases h1 : v ≤ 15 <;> by_cases h2 : v ≤ 25 <;> simp [h1, h2] <;>
        first | linarith | (intro; linarith) | (constructor <;> linarith)
    · by_cases h1 : v ≤ 15 <;> by_cases h2 : v ≤ 25 <;> simp [h1, h2] <;> linarith
  · rw [hACoS]; rfl
  · rw [hROAS]
    norm_num [AppRev.get_status_emoji, AppRev.BENCHMARKS]

/-- C5: `get_recommendations` returns exactly the triggered issues of the
rule-declaration-order list (`issues_unsorted`, which carries each rule's
fixed priority and fixed ordered action items), stably sorted by priority
rank CRITICAL = 0 < HIGH = 1 < MEDIUM = 2: the output is the rank-0 block,
then the rank-1 block, then the rank-2 block, each in declaration order; the
output is rank-sorted; and an all-healthy metric set yields `[]`.  Proved
for the spreadsheet variant and the revenue-aware variant (declaration order
Checkout, LP view, CTR, ROAS, ACoS).  Determinism across repeated calls is
immediate: both `get_recommendations` are functions of the metric set. -/
theorem claim_C5_recommendation_order (m : AppManual.Metrics) (mr : AppRev.Metrics) :
    (AppManual.get_recommendations m =
      (AppManual.issues_unsorted m).filter (fun x => rankOf x == 0) ++
        (AppManual.issues_unsorted m).filter (fun x => rankOf x == 1) ++
        (AppManual.issues_unsorted m).filter (fun x => rankOf x == 2)) ∧
    ((AppManual.get_recommendations m).Pairwise fun x y => rankOf x ≤ rankOf y) ∧
    (¬ m.Checkout_Rate < 60 → ¬ m.LP_View_Rate < 80 → ¬ m.Purchase_Rate < 50 →
      ¬ m.CTR < 0.9 → AppManual.get_recommendations m = []) ∧
    (AppRev.get_recommendations mr =
      (AppRev.issues_unsorted mr).filter (fun x => rankOf x == 0) ++
        (AppRev.issues_unsorted mr).filter (fun x => rankOf x == 1) ++
        (AppRev.issues_unsorted mr).filter (fun x => rankOf x == 2)) ∧
    ((AppRev.get_recommendations mr).Pairwise fun x y => rankOf x ≤ rankOf y) ∧
    (¬ mr.Checkout_Rate < 60 → ¬ mr.LP_View_Rate < 80 → ¬ mr.CTR < 0.9 →
      ¬ mr.ROAS < 2.0 → ¬ 25 < mr.ACoS → AppRev.get_recommendations mr = []) := by
  refine ⟨issueSort_eq_filters _ (AppManual.issues_rank_le_manual m), pairwise_issueSort _, ?_,
    issueSort_eq_filters _ (AppRev.issues_rank_le_rev mr), pairwise_issueSort _, ?_⟩
  · intro h1 h2 h3 h4
    simp [AppManual.get_recommendations, AppManual.issues_unsorted, h1, h2, h3, h4, issueSort]
  · intro h1 h2 h3 h4 h5
    simp [AppRev.get_recommendations, AppRev.issues_unsorted, h1, h2, h3, h4, h5, issueSort]

/-- C5 witness: all-healthy metric sets yield the empty issue list. -/
theorem claim_C5_witness :
    AppManual.get_recommendations AppManual.healthyMetrics = [] ∧
    AppRev.get_recommendations AppRev.healthyMetrics = [] := by
  obtain ⟨-, -, w3, -, -, w6⟩ :=
    claim_C5_recommendation_order AppManual.healthyMetrics AppRev.healthyMetrics
  exact ⟨w3 (by norm_num [AppManual.healthyMetrics]) (by norm_num [AppManual.healthyMetrics])
      (by norm_num [AppManual.healthyMetrics]) (by norm_num [AppManual.healthyMetrics]),
    w6 (by norm_num [AppRev.healthyMetrics]) (by norm_num [AppRev.healthyMetrics])
      (by norm_num [AppRev.healthyMetrics]) (by norm_num [AppRev.healthyMetrics])
      (by norm_num [AppRev.healthyMetrics])⟩

/-- C6 (amended): in the two API-fed variants (`app.py` and
`before_metrics_addition.py`) the Frequency returned by `calculate_metrics`
on a non-empty row set is the arithmetic mean of the per-row `frequency`
values — the sum of the rows' frequencies divided by the row count.  (As
`claim_C6_counterexample` shows, the spreadsheet variant `appmanual.py`
instead returns total impressions / total clicks; its canonical rows carry
no frequency field at all.) -/
theorem claim_C6_frequency_mean (rows : List AppLive.ApiRow)
    (rows2 : List AppRev.RevRow) (h : rows ≠ []) (h2 : rows2 ≠ []) :
    (AppLive.calculate_metrics rows).Frequency =
      (rows.map AppLive.ApiRow.frequency).sum / (rows.length : ℚ) ∧
    (AppRev.calculate_metrics rows2).Frequency =
      (rows2.map AppRev.RevRow.frequency).sum / (rows2.length : ℚ) := by
  constructor
  · have hl : 0 < rows.length := List.length_pos.mpr h
    simp [AppLive.calculate_metrics, AppLive.sumBy, hl]
  · have hl : 0 < rows2.length := List.length_pos.mpr h2
    simp [AppRev.calculate_metrics, AppRev.sumBy, hl]

/-- C6 witness: the mean evaluated on concrete one-row sets. -/
theorem claim_C6_witness :
    (AppLive.calculate_metrics [AppLive.c6row]).Frequency = 3 ∧
    (AppRev.calculate_metrics [AppRev.acosScenarioRow]).Frequency = 0 := by
  have h := claim_C6_frequency_mean [AppLive.c6row] [AppRev.acosScenarioRow]
    (by simp) (by simp)
  constructor
  · rw [h.1]; norm_num [AppLive.c6row]
  · rw [h.2]; norm_num [AppRev.acosScenarioRow]

/-- C6 counterexample: one observed day with 10 impressions, 2 clicks and an
upstream-reported frequency of 3 (`AppLive.c6row`; `AppManual.c6row` is its
spreadsheet projection, which drops the frequency column).  The spreadsheet
variant's `calculate_metrics` returns Frequency 5 = impressions / clicks for
that day, while the arithmetic mean of the row's frequency values is 3 — so
"the Frequency value returned by calculate_metrics equals the arithmetic
mean of the rows' frequency field values" is false of `appmanual.py`. -/
theorem claim_C6_counterexample :
    (AppManual.calculate_metrics [AppManual.c6row]).Frequency = 5 ∧
    ([AppLive.c6row].map AppLive.ApiRow.frequency).sum /
      (([AppLive.c6row].length : ℕ) : ℚ) = 3 ∧
    (5 : ℚ) ≠ 3 := by
  refine ⟨?_, ?_, by norm_num⟩
  · norm_num [AppManual.calculate_metrics, AppManual.sumBy, AppManual.c6row]
  · norm_num [AppLive.c6row]

/-- C7: `clean_sheet` rejects a sheet whose date column does not resolve
from the synonym table, returning no rows (and an empty notes list, matching
the code's early `return None, []`); when date resolves but any of the seven
required fields (impressions, clicks, lp_views, adds_to_cart, checkouts,
spend, purchases) fails to resolve, it returns no rows while still
returning the sheet's non-data free text as notes.  `clean_sheet` is a total
function, so no exception escapes the normalizer in either case. -/
theorem claim_C7_reject_unresolved (raw : AppManual.RawSheet) (name : String) :
    ((AppManual.normalize_columns (AppManual.sheetHeader raw)).date = none →
      AppManual.clean_sheet raw name = (none, [])) ∧
    (∀ dateCol, (AppManual.normalize_columns (AppManual.sheetHeader raw)).date = some dateCol →
      ((AppManual.normalize_columns (AppManual.sheetHeader raw)).impressions = none ∨
       (AppManual.normalize_columns (AppManual.sheetHeader raw)).clicks = none ∨
       (AppManual.normalize_columns (AppManual.sheetHeader raw)).lp_views = none ∨
       (AppManual.normalize_columns (AppManual.sheetHeader raw)).adds_to_cart = none ∨
       (AppManual.normalize_columns (AppManual.sheetHeader raw)).checkouts = none ∨
       (AppManual.normalize_columns (AppManual.sheetHeader raw)).spend = none ∨
       (AppManual.normalize_columns (AppManual.sheetHeader raw)).purchases = none) →
      AppManual.clean_sheet raw name =
        (none, (AppManual.split_data_and_notes (AppManual.sheetHeader raw)
          (AppManual.sheetBody raw) dateCol).2)) := by
  constructor
  · intro h
    simp [AppManual.clean_sheet, h]
  · intro dateCol hd hreq
    rcases h1 : (AppManual.normalize_columns (AppManual.sheetHeader raw)).impressions with _ | ci
    · simp [AppManual.clean_sheet, hd, h1]
    rcases h2 : (AppManual.normalize_columns (AppManual.sheetHeader raw)).clicks with _ | cc
    · simp [AppManual.clean_sheet, hd, h1, h2]
    rcases h3 : (AppManual.normalize_columns (AppManual.sheetHeader raw)).lp_views with _ | cl
    · simp [AppManual.clean_sheet, hd, h1, h2, h3]
    rcases h4 : (AppManual.normalize_columns (AppManual.sheetHeader raw)).adds_to_cart with _ | ca
    · simp [AppManual.clean_sheet, hd, h1, h2, h3, h4]
    rcases h5 : (AppManual.normalize_columns (AppManual.sheetHeader raw)).checkouts with _ | ck
    · simp [AppManual.clean_sheet, hd, h1, h2, h3, h4, h5]
    rcases h6 : (AppManual.normalize_columns (AppManual.sheetHeader raw)).spend with _ | cs
    · simp [AppManual.clean_sheet, hd, h1, h2, h3, h4, h5, h6]
    rcases h7 : (AppManual.normalize_columns (AppManual.sheetHeader raw)).purchases with _ | cp
    · simp [AppManual.clean_sheet, hd, h1, h2, h3, h4, h5, h6, h7]
    simp_all

/-- C7 witness: a sheet with no date column is rejected with empty notes; a
sheet missing only its `spend` column is rejected with its free-text note
preserved. -/
theorem claim_C7_witness :
    AppManual.clean_sheet sheetNoDate "A" = (none, []) ∧
    AppManual.clean_sheet sheetNoSpend "B" =
      (none, ["Note: paused campaign due to inventory"]) := by
  constructor
  · exact (claim_C7_reject_unresolved sheetNoDate "A").1 (by decide)
  · have h := (claim_C7_reject_unresolved sheetNoSpend "B").2 "Day" (by decide) (by decide)
    rw [h]
    decide

/-- C8: the synthetic sheet with header "Day, Impressions, Link clicks,
Landing page views, Adds to cart, Checkouts initiated, Amount spent,
Results" and single data row (2024-01-01, 1000, 50, 45, 10, 7, 500, 4)
normalizes through `clean_sheet` — header detection, synonym resolution,
date classification, numeric coercion — to exactly one Canonical Row with
impressions 1000, clicks 50, lp_views 45, adds_to_cart 10, checkouts 7,
spend 500, purchases 4, and the data row contributes nothing to `notes`. -/
theorem claim_C8_roundtrip :
    AppManual.clean_sheet c8sheet "Product A" =
      (some [{ date := (2024, 1, 1), impressions := 1000, clicks := 50, lp_views := 45,
               adds_to_cart := 10, checkouts := 7, purchases := 4, spend := 500,
               product := "Product A" }], []) := by decide

/-- C9: the core operations are pure functions of their inputs, so repeated
calls on the same input are literally identical; `calculate_daily_metrics`
returns a fresh table that carries every input row unchanged (mapping each
output row back to its `base` recovers the input row set exactly, the
embedded form of `daily = df.copy()` leaving the input untouched). -/
theorem claim_C9_pure_idempotent (rows : List AppManual.CanonRow)
    (m : AppManual.Metrics) (name : String) (v : ℚ) :
    AppManual.calculate_metrics rows = AppManual.calculate_metrics rows ∧
    AppManual.calculate_daily_metrics rows = AppManual.calculate_daily_metrics rows ∧
    (AppManual.calculate_daily_metrics rows).map AppManual.DailyRow.base = rows ∧
    AppManual.get_status name v = AppManual.get_status name v ∧
    AppManual.get_recommendations m = AppManual.get_recommendations m := by
  refine ⟨rfl, rfl, ?_, rfl, rfl⟩
  induction rows with
  | nil => rfl
  | cons r t ih =>
    simp only [AppManual.calculate_daily_metrics, List.map_cons] at ih ⊢
    rw [ih]

/-- C10 (amended): each funnel field of a normalized insight row equals the
value of the last actions-list entry whose action type passes that field's
*effective* guard — its own substring test with no earlier branch of the
if/elif chain (landing_page_view, add_to_cart, initiate_checkout, purchase)
matching — and defaults to 0 when no entry matches; later matches overwrite
earlier ones and values are never summed.  In particular `omni_purchase`
(which contains "purchase" and matches no earlier branch) sets `purchases`. -/
theorem claim_C10_last_action_wins (date product : String)
    (impressions clicks spend reach frequency cpc ctr : ℚ)
    (actions : List AppLive.Action) :
    ((AppLive.insightRow date product impressions clicks spend reach frequency cpc ctr
        actions).lp_views = (AppLive.lastMatch AppLive.effLP actions).getD 0) ∧
    ((AppLive.insightRow date product impressions clicks spend reach frequency cpc ctr
        actions).adds_to_cart = (AppLive.lastMatch AppLive.effATC actions).getD 0) ∧
    ((AppLive.insightRow date product impressions clicks spend reach frequency cpc ctr
        actions).checkouts = (AppLive.lastMatch AppLive.effIC actions).getD 0) ∧
    ((AppLive.insightRow date product impressions clicks spend reach frequency cpc ctr
        actions).purchases = (AppLive.lastMatch AppLive.effPur actions).getD 0) ∧
    (AppLive.insightRow date product impressions clicks spend reach frequency cpc ctr
        [⟨"omni_purchase", 7⟩]).purchases = 7 :=
  ⟨AppLive.extract_lp _ _, AppLive.extract_atc _ _, AppLive.extract_ic _ _,
    AppLive.extract_pur _ _, rfl⟩

/-- C10 counterexample: the action type "add_to_cart_purchase" contains the
substring "purchase", yet an insight record whose only action is
`(add_to_cart_purchase, 5)` ends with `purchases = 0` — the earlier
`add_to_cart` branch of the elif chain captures it (`adds_to_cart = 5`).
So "any action_type containing the substring purchase sets the purchases
field", as the claim states it, is false of the code. -/
theorem claim_C10_counterexample :
    strContains "purchase" "add_to_cart_purchase" = true ∧
    (AppLive.insightRow "2024-01-01" "P" 0 0 0 0 0 0 0
        [⟨"add_to_cart_purchase", 5⟩]).purchases = 0 ∧
    (AppLive.insightRow "2024-01-01" "P" 0 0 0 0 0 0 0
        [⟨"add_to_cart_purchase", 5⟩]).adds_to_cart = 5 ∧
    (0 : ℚ) ≠ 5 :=
  ⟨by decide, by decide, by decide, by norm_num⟩
